import Mathlib

/-!
# SQL Advisory Engine — formal model

A shallow embedding of the advisory core of the `ai-powered-mysql-assistant`
repository: the issue detector, query scorer, index advisor and query
rewriter of `src/query_optimizer.py`, and the generate–validate–repair loop
of `src/query_generator.py`.

Conventions of the embedding:
* Python strings are Lean `String`s; pattern scanning works on `List Char`.
* The regular-expression patterns of the source (`SELECT\s+\*`,
  `FROM\s+(\w+)`, `WHERE\s+(\w+)\s*[=<>]`, `ON\s+\w+\.(\w+)\s*=`,
  `ORDER\s+BY\s+(\w+)`, case-insensitive) are embedded as dedicated
  scanners over character lists.  `\w` and `\s` are modelled over ASCII.
  In every pattern used by the source, the token after a greedy `\w+`/`\s+`
  can never match a character the greedy run consumed, so maximal-munch
  scanning without backtracking is exact.
* A Python dictionary field that may be missing, `None`, or a string is
  modelled by `PyStr`; `dict.get` with a default is embedded accordingly.
* Python's `set()` has unspecified iteration order; it is modelled as
  de-duplication keeping first occurrences.
* Code that can raise is embedded in `Except String`.
-/

/-- A Python dict entry that is absent, `None`, or a string. -/
inductive PyStr where
  | absent
  | null
  | str (s : String)
deriving DecidableEq, Repr

namespace PyStr

/-- `d.get(key, default)` for a string default: an absent key yields the
default, a `None` value stays `None` (Lean `none`), a string is itself. -/
def getD (v : PyStr) (default : String) : Option String :=
  match v with
  | .absent => some default
  | .null => none
  | .str s => some s

/-- `str(x)` as used in an f-string: `None` prints as `"None"`. -/
def pyShow (v : PyStr) : String :=
  match v with
  | .absent => "None"
  | .null => "None"
  | .str s => s

end PyStr

/-! ## Character classes (ASCII model of `\s` and `\w`) -/

/-- Python regex `\s` over ASCII. -/
def isPySpace (c : Char) : Bool :=
  c = ' ' || c = '\t' || c = '\n' || c = '\x0d' || c = '\x0b' || c = '\x0c'

/-- Python regex `\w` over ASCII: letters, digits, underscore. -/
def isPyWord (c : Char) : Bool :=
  c.isAlphanum || c = '_'

/-- Python `str.strip()`: drop leading and trailing whitespace. -/
def pyStrip (cs : List Char) : List Char :=
  ((cs.dropWhile isPySpace).reverse.dropWhile isPySpace).reverse

/-- Python `str.upper()` over ASCII. -/
def pyUpper (cs : List Char) : List Char := cs.map Char.toUpper

/-! ## Pattern scanners -/

/-- Case-insensitive literal match at the head; returns the rest on success. -/
def matchLitCI : List Char → List Char → Option (List Char)
  | [], cs => some cs
  | _ :: _, [] => none
  | l :: ls, c :: cs => if l.toLower = c.toLower then matchLitCI ls cs else none

/-- Case-sensitive literal match at the head; returns the rest on success. -/
def matchLit : List Char → List Char → Option (List Char)
  | [], cs => some cs
  | _ :: _, [] => none
  | l :: ls, c :: cs => if l = c then matchLit ls cs else none

/-- Greedily drop `\s*`. -/
def dropPySpaces : List Char → List Char
  | [] => []
  | c :: cs => if isPySpace c then dropPySpaces cs else c :: cs

/-- Match `\s+`: at least one whitespace character, greedily. -/
def matchSpaces1 : List Char → Option (List Char)
  | [] => none
  | c :: cs => if isPySpace c then some (dropPySpaces cs) else none

/-- Greedy `\w*` run from the head, as a pair (run, rest). -/
def takeWordRun : List Char → List Char × List Char
  | [] => ([], [])
  | c :: cs =>
    if isPyWord c then
      let (w, r) := takeWordRun cs
      (c :: w, r)
    else ([], c :: cs)

/-- Match a capture group `(\w+)`: a non-empty greedy word run. -/
def takeWord1 (cs : List Char) : Option (String × List Char) :=
  match takeWordRun cs with
  | ([], _) => none
  | (w, r) => some (String.mk w, r)

/-- Does the pattern match at some position of the list (Python `re.search`)? -/
def existsMatch (try_ : List Char → Option (List Char)) : List Char → Bool
  | [] => (try_ []).isSome
  | c :: rest => (try_ (c :: rest)).isSome || existsMatch try_ rest

/-- All non-overlapping captures, scanning left to right (Python
`re.findall`).  Fuel only bounds the recursion; every scanner consumes at
least one character on success, so `cs.length` fuel is never exhausted
before the input is. -/
def findAllAux (try_ : List Char → Option (String × List Char)) :
    Nat → List Char → List String
  | 0, _ => []
  | _ + 1, [] => []
  | fuel + 1, c :: rest =>
    match try_ (c :: rest) with
    | some (w, r2) => w :: findAllAux try_ fuel r2
    | none => findAllAux try_ fuel rest

/-- `re.findall(pattern, s)` for a single-capture pattern. -/
def findAll (try_ : List Char → Option (String × List Char)) (s : String) :
    List String :=
  findAllAux try_ s.data.length s.data

/-! ### The concrete patterns of `query_optimizer.py` -/

/-- `SELECT\s+\*` at the head (no capture). -/
def trySelectStar (cs : List Char) : Option (List Char) := do
  let r1 ← matchLitCI "select".data cs
  let r2 ← matchSpaces1 r1
  match r2 with
  | '*' :: r3 => some r3
  | _ => none

/-- `FROM\s+(\w+)` at the head, capturing the table name. -/
def tryFromTable (cs : List Char) : Option (String × List Char) := do
  let r1 ← matchLitCI "from".data cs
  let r2 ← matchSpaces1 r1
  takeWord1 r2

/-- `WHERE\s+(\w+)\s*[=<>]` at the head, capturing the column name. -/
def tryWhereCol (cs : List Char) : Option (String × List Char) := do
  let r1 ← matchLitCI "where".data cs
  let r2 ← matchSpaces1 r1
  let (w, r3) ← takeWord1 r2
  match dropPySpaces r3 with
  | c :: r4 => if c = '=' || c = '<' || c = '>' then some (w, r4) else none
  | [] => none

/-- `ON\s+\w+\.(\w+)\s*=` at the head, capturing the joined column. -/
def tryOnCol (cs : List Char) : Option (String × List Char) := do
  let r1 ← matchLitCI "on".data cs
  let r2 ← matchSpaces1 r1
  let (_, r3) ← takeWord1 r2
  match r3 with
  | '.' :: r4 => do
    let (w, r5) ← takeWord1 r4
    match dropPySpaces r5 with
    | '=' :: r6 => some (w, r6)
    | _ => none
  | _ => none

/-- `ORDER\s+BY\s+(\w+)` at the head, capturing the first order column. -/
def tryOrderCol (cs : List Char) : Option (String × List Char) := do
  let r1 ← matchLitCI "order".data cs
  let r2 ← matchSpaces1 r1
  let r3 ← matchLitCI "by".data r2
  let r4 ← matchSpaces1 r3
  takeWord1 r4

/-- `re.search(r'SELECT\s+\*', q, IGNORECASE)` as a Boolean. -/
def searchSelectStar (q : String) : Bool := existsMatch trySelectStar q.data

/-- `re.search(r'WHERE', q, IGNORECASE)` as a Boolean. -/
def searchWhere (q : String) : Bool :=
  existsMatch (matchLitCI "where".data) q.data

/-- `re.search(r'FROM\s+\w+', q, IGNORECASE)` as a Boolean. -/
def searchFromIdent (q : String) : Bool :=
  existsMatch (fun cs => (tryFromTable cs).map (·.2)) q.data

/-- `re.search(r'LIMIT', q, IGNORECASE)` as a Boolean. -/
def searchLimit (q : String) : Bool :=
  existsMatch (matchLitCI "limit".data) q.data

/-- Case-sensitive substring test: Python's `needle in haystack`. -/
def containsSub (needle haystack : String) : Bool :=
  existsMatch (matchLit needle.data) haystack.data

/-! ## Execution-plan steps and issues -/

/-- One row of execution-plan metadata, with the three fields the detector
reads (`type`, `table`, `Extra`), each possibly absent or `None`. -/
structure PlanStep where
  type_ : PyStr
  table : PyStr
  extra : PyStr
deriving DecidableEq, Repr

/-- `step.get('Extra', '')`: the default applies only to an absent key; an
explicit `None` value comes through as `none`. -/
def PlanStep.getExtra (s : PlanStep) : Option String := s.extra.getD ""

/-- An issue record as built by `_find_issues`.  `table` is only set for
table-scan issues (absent otherwise); `severity` is kept as a `PyStr` so
that the scorer's treatment of malformed records is expressible. -/
structure Issue where
  type_ : String
  severity : PyStr
  message : String
  suggestion : String
  table : PyStr := .absent
deriving DecidableEq, Repr

/-- The `select_all` issue record. -/
def selectAllIssue : Issue :=
  { type_ := "select_all"
    severity := .str "medium"
    message := "Using SELECT * can retrieve unnecessary columns"
    suggestion := "Specify only the columns you need" }

/-- The `no_where` issue record. -/
def noWhereIssue : Issue :=
  { type_ := "no_where"
    severity := .str "high"
    message := "Query has no WHERE clause, may scan entire table"
    suggestion := "Add WHERE clause to filter results" }

/-- The `table_scan` issue record for a plan step's table field. -/
def tableScanIssue (table : PyStr) : Issue :=
  { type_ := "table_scan"
    severity := .str "high"
    message := "Full table scan on " ++ table.pyShow
    suggestion := "Consider adding an index"
    table := table }

/-- The `filesort` issue record. -/
def filesortIssue : Issue :=
  { type_ := "filesort"
    severity := .str "medium"
    message := "Query requires filesort operation"
    suggestion := "Add index on ORDER BY columns" }

/-- The `temporary_table` issue record. -/
def temporaryTableIssue : Issue :=
  { type_ := "temporary_table"
    severity := .str "medium"
    message := "Query creates temporary table"
    suggestion := "Optimize joins or use covering index" }

/-- The Python error text of `'needle' in None`. -/
def noneTypeError : String :=
  "TypeError: argument of type 'NoneType' is not iterable"

/-- One of the two `Extra`-scanning loops of `_find_issues`: for each step,
test `needle in step.get('Extra', '')`, which raises when the `Extra`
value is `None`. -/
def issuesExtraScan (needle : String) (issue : Issue) :
    List PlanStep → Except String (List Issue)
  | [] => .ok []
  | s :: rest => do
    match s.getExtra with
    | none => .error noneTypeError
    | some e =>
      let tail ← issuesExtraScan needle issue rest
      pure ((if containsSub needle e then [issue] else []) ++ tail)

/-- `QueryOptimizer._find_issues`: the five detection rules, appended in
source order (`select_all`, `no_where`, per-step `table_scan`, per-step
`filesort`, per-step `temporary_table`). -/
def findIssues (query : String) (plan : List PlanStep) :
    Except String (List Issue) := do
  let selectAll := if searchSelectStar query then [selectAllIssue] else []
  let noWhere :=
    if ¬ searchWhere query then
      if searchFromIdent query then [noWhereIssue] else []
    else []
  let tableScans :=
    plan.filterMap fun s =>
      if s.type_ = .str "ALL" then some (tableScanIssue s.table) else none
  let filesorts ← issuesExtraScan "Using filesort" filesortIssue plan
  let temporaries ← issuesExtraScan "Using temporary" temporaryTableIssue plan
  pure (selectAll ++ noWhere ++ tableScans ++ filesorts ++ temporaries)

/-! ## Query scorer -/

/-- The penalty charged for one issue:
`severity_penalties.get(issue.get('severity', 'low'), 5)` — an absent
severity defaults to `'low'`, and any value outside the table (including
`None` and unknown strings) falls back to 5. -/
def penaltyOf (sev : PyStr) : Int :=
  match sev with
  | .absent => 5
  | .null => 5
  | .str s =>
    if s = "low" then 5
    else if s = "medium" then 15
    else if s = "high" then 30
    else 5

/-- `QueryOptimizer._calculate_query_score`: start at 100, subtract each
issue's penalty, clamp at 0 on return. -/
def calculateQueryScore (issues : List Issue) : Int :=
  max 0 (issues.foldl (fun sc i => sc - penaltyOf i.severity) 100)

/-! ## Query rewriter -/

/-- `re.sub(r'SELECT\s+\*', 'SELECT id, name, created_at', q, IGNORECASE)`:
replace every non-overlapping occurrence, scanning left to right.  As in
`findAllAux`, fuel merely bounds the recursion. -/
def subSelectStarAux : Nat → List Char → List Char
  | 0, cs => cs
  | _ + 1, [] => []
  | fuel + 1, c :: rest =>
    match trySelectStar (c :: rest) with
    | some r2 => "SELECT id, name, created_at".data ++ subSelectStarAux fuel r2
    | none => c :: subSelectStarAux fuel rest

/-- The rewriter's `SELECT *` substitution with its fixed fallback list. -/
def subSelectStar (q : String) : String :=
  String.mk (subSelectStarAux q.data.length q.data)

/-- `QueryOptimizer._generate_optimized_query`: substitute the fallback
column list when a `select_all` issue is present, then append
`' LIMIT 1000'` when a `no_where` issue is present and the (possibly
substituted) text has no `LIMIT`. -/
def generateOptimizedQuery (q : String) (issues : List Issue) : String :=
  let optimized :=
    if issues.any (fun i => i.type_ == "select_all") then subSelectStar q
    else q
  if issues.any (fun i => i.type_ == "no_where") then
    if ¬ searchLimit optimized then optimized ++ " LIMIT 1000" else optimized
  else optimized

/-! ## Index advisor -/

/-- Fuelled worker for `dedupFirst`; filtering only shortens the list, so
`l.length` fuel always suffices. -/
def dedupFirstAux : Nat → List String → List String
  | 0, _ => []
  | _ + 1, [] => []
  | fuel + 1, x :: xs => x :: dedupFirstAux fuel (xs.filter (fun y => y ≠ x))

/-- Model of iterating a Python `set(l)`: duplicates removed; iteration
order is unspecified in Python and fixed here as first-occurrence order. -/
def dedupFirst (l : List String) : List String := dedupFirstAux l.length l

/-- The single-column statement text built in the advisor's inner loop. -/
def mkColIndex (t c : String) : String :=
  "CREATE INDEX idx_" ++ t ++ "_" ++ c ++ " ON " ++ t ++ "(" ++ c ++ ");"

/-- The order-by statement text: note the literal `_order` suffix. -/
def mkOrderIndex (t : String) (cols : List String) : String :=
  "CREATE INDEX idx_" ++ t ++ "_order ON " ++ t ++ "(" ++
    String.intercalate ", " cols ++ ");"

/-- `re.findall(r'FROM\s+(\w+)', q, IGNORECASE)`. -/
def extractTables (q : String) : List String := findAll tryFromTable q

/-- `re.findall(r'WHERE\s+(\w+)\s*[=<>]', q, IGNORECASE)`. -/
def extractWhereCols (q : String) : List String := findAll tryWhereCol q

/-- `re.findall(r'ON\s+\w+\.(\w+)\s*=', q, IGNORECASE)`. -/
def extractJoinCols (q : String) : List String := findAll tryOnCol q

/-- `re.findall(r'ORDER\s+BY\s+(\w+)', q, IGNORECASE)`. -/
def extractOrderCols (q : String) : List String := findAll tryOrderCol q

/-- `QueryOptimizer.suggest_indexes`, as written in the source: for each
table, one single-column `CREATE INDEX` per element of
`set(where_columns + join_columns)`, then — when any order column was
found — one `idx_<table>_order` statement over `set(order_columns)`. -/
def suggestIndexes (q : String) : List String :=
  let tables := extractTables q
  let whereColumns := extractWhereCols q
  let joinColumns := extractJoinCols q
  let orderColumns := extractOrderCols q
  tables.foldl
    (fun acc t =>
      let acc1 := (dedupFirst (whereColumns ++ joinColumns)).foldl
        (fun a c => a ++ [mkColIndex t c]) acc
      if orderColumns.isEmpty then acc1
      else acc1 ++ [mkOrderIndex t (dedupFirst orderColumns)])
    []

/-- The advisor's per-table output, stated structurally (used to compare
the fold in `suggestIndexes` against a per-table description). -/
def suggestIndexesPerTable (q : String) : List String :=
  (extractTables q).flatMap fun t =>
    (dedupFirst (extractWhereCols q ++ extractJoinCols q)).map (mkColIndex t) ++
    (if (extractOrderCols q).isEmpty then []
     else [mkOrderIndex t (dedupFirst (extractOrderCols q))])

/-! ## Advisory orchestrator -/

/-- The result shape of `QueryOptimizer.analyze`. -/
structure AnalyzeReport where
  query : String
  issues : List Issue
  executionPlan : List PlanStep
  score : Int
deriving Repr

/-- `QueryOptimizer.analyze`: fetch the plan from the execution
collaborator, detect, score.  The collaborator itself never raises (the
source's `explain_query` returns `[]` on failure), so it is a total
function; detection can still raise. -/
def analyze (explain : String → List PlanStep) (q : String) :
    Except String AnalyzeReport := do
  let plan := explain q
  let issues ← findIssues q plan
  pure ⟨q, issues, plan, calculateQueryScore issues⟩

/-- The result shape of `QueryOptimizer.optimize` (no score field). -/
structure OptimizationReport where
  originalQuery : String
  optimizedQuery : String
  issuesFound : List Issue
  indexSuggestions : List String
  aiRecommendations : String
  executionPlan : List PlanStep
deriving Repr

/-- `QueryOptimizer.optimize`: plan fetch, detection, rewrite, index
suggestions, and opaque narrative advice from the text-generation
collaborator. -/
def optimize (explain : String → List PlanStep)
    (advice : String → List PlanStep → List Issue → String) (q : String) :
    Except String OptimizationReport := do
  let plan := explain q
  let issues ← findIssues q plan
  let optimized := generateOptimizedQuery q issues
  let idx := suggestIndexes q
  pure ⟨q, optimized, issues, idx, advice q plan issues, plan⟩

/-! ## Generate–validate–repair loop (`query_generator.py`) -/

/-- A column of the schema context. -/
structure Column where
  name : String
  type_ : String
deriving Repr

/-- A table of the schema context. -/
structure TableInfo where
  columns : List Column
deriving Repr

/-- The schema-context dictionary passed to the generator. -/
structure Schema where
  tables : List (String × TableInfo)
deriving Repr

/-- `QueryGenerator._format_schema`. -/
def formatSchema (schema : Schema) : String :=
  String.intercalate "\n"
    (schema.tables.map fun p =>
      "Table: " ++ p.1 ++ "\nColumns: " ++
        String.intercalate ", "
          (p.2.columns.map fun c => c.name ++ " (" ++ c.type_ ++ ")") ++
        "\n")

/-- `QueryGenerator._create_prompt`. -/
def createPrompt (description : String) (schema : Schema) : String :=
  "You are an expert MySQL query generator.\n\nDatabase Schema:\n" ++
  formatSchema schema ++
  "\n\nUser Request: " ++ description ++
  "\n\nGenerate a MySQL query that:\n" ++
  "1. Answers the user's request accurately\n" ++
  "2. Uses proper MySQL syntax\n" ++
  "3. Follows best practices (proper joins, WHERE clauses, etc.)\n" ++
  "4. Includes appropriate LIMIT clauses if needed\n" ++
  "5. Returns only the SQL query, no explanations\n\nSQL Query:"

/-- The repair prompt built by `QueryGenerator._fix_query`. -/
def fixPrompt (query error : String) (schema : Schema) : String :=
  "The following MySQL query has an error:\n\nQuery: " ++ query ++
  "\nError: " ++ error ++ "\n\nDatabase Schema:\n" ++ formatSchema schema ++
  "\n\nPlease provide a corrected version of the query that fixes the " ++
  "error.\nReturn only the corrected SQL query, no explanations.\n\n" ++
  "Corrected Query:"

/-- The mutating keywords of the policy gate. -/
def mutatingKeywords : List String :=
  ["DROP", "DELETE", "TRUNCATE", "UPDATE", "INSERT"]

/-- Outcome of `QueryGenerator._validate_query`, together with the trace
of statements sent to the execution collaborator. -/
structure ValidationResult where
  isValid : Bool
  error : Option String
  explainCalls : List String
deriving Repr

/-- `QueryGenerator._validate_query`: the policy gate (a candidate whose
stripped, upper-cased text does not start with `SELECT` and that contains
a mutating keyword is rejected without touching the collaborator), then a
live syntax check via the execution collaborator, whose failure text
becomes the validation error. -/
def validateQuery (explain : String → Except String Unit) (q : String) :
    ValidationResult :=
  if ¬ (matchLit "SELECT".data (pyUpper (pyStrip q.data))).isSome &&
      mutatingKeywords.any
        (fun w => existsMatch (matchLit w.data) (pyUpper q.data)) then
    ⟨false, some "Only SELECT queries are allowed", []⟩
  else
    match explain q with
    | .ok _ => ⟨true, none, [q]⟩
    | .error e => ⟨false, some e, [q]⟩

/-- `str(x)` for the error threaded into the repair prompt. -/
def errText : Option String → String
  | none => "None"
  | some e => e

/-- Trace of one `QueryGenerator.generate` call: the returned text, the
prompts sent to the generation collaborator (in order), and the
statements sent to the execution collaborator. -/
structure GenTrace where
  result : String
  genPrompts : List String
  explainCalls : List String
deriving Repr

/-- `QueryGenerator.generate`: request a candidate, validate it once, and
on failure request a repaired candidate — which is returned as-is, with
no second validation. -/
def generate (ai : String → String) (explain : String → Except String Unit)
    (description : String) (schemaContext : Schema) : GenTrace :=
  let prompt := createPrompt description schemaContext
  let query := ai prompt
  let v := validateQuery explain query
  if v.isValid then ⟨query, [prompt], v.explainCalls⟩
  else
    let fp := fixPrompt query (errText v.error) schemaContext
    ⟨ai fp, [prompt, fp], v.explainCalls⟩

/-! ## Fixtures and specification-side definitions -/

/-- The penalty table exactly as the specification words it: low 5,
medium 15, high 30 (defined only on those three severities). -/
def claimPenalty : PyStr → Int
  | .str "low" => 5
  | .str "medium" => 15
  | .str "high" => 30
  | _ => 0

/-- An execution collaborator returning one full-scan step on
`customers` for every statement. -/
def fullScanCustomersExplain : String → List PlanStep :=
  fun _ => [⟨.str "ALL", .str "customers", .absent⟩]

/-- A generation collaborator that answers the initial prompt with
`SELECT 1` and any other (repair) prompt with `SELECT 2`, so the two
candidates of one `generate` call are distinguishable. -/
def repairProbeAi : String → String := fun p =>
  if p = createPrompt "d" ⟨[]⟩ then "SELECT 1" else "SELECT 2"

/-! ## Scorer lemmas -/

/-- The running subtraction of `_calculate_query_score` equals the initial
value minus the sum of the penalties. -/
theorem score_foldl (issues : List Issue) (acc : Int) :
    issues.foldl (fun sc i => sc - penaltyOf i.severity) acc
      = acc - (issues.map (fun i => penaltyOf i.severity)).sum := by
  induction issues generalizing acc with
  | nil => simp
  | cons i rest ih =>
    simp only [List.foldl_cons, List.map_cons, List.sum_cons, ih]
    ring

/-- C2: for every issue list over the three documented severities, the
score is 100 minus the sum of the per-severity penalties (low 5,
medium 15, high 30) clamped at a floor of 0; the empty list scores 100, a
single high-severity issue scores 70, and the score is never negative for
any issue list whatsoever. -/
theorem scorer_clamped_penalty_sum :
    (∀ issues : List Issue,
      (∀ i ∈ issues, i.severity = PyStr.str "low" ∨ i.severity = PyStr.str "medium"
          ∨ i.severity = PyStr.str "high") →
      calculateQueryScore issues
        = max 0 (100 - (issues.map (fun i => claimPenalty i.severity)).sum)) ∧
    calculateQueryScore [] = 100 ∧
    (∀ i : Issue, i.severity = PyStr.str "high" → calculateQueryScore [i] = 70) ∧
    (∀ issues : List Issue, 0 ≤ calculateQueryScore issues) := by
  refine ⟨?_, rfl, ?_, ?_⟩
  · intro issues h
    have hmap : issues.map (fun i => penaltyOf i.severity)
        = issues.map (fun i => claimPenalty i.severity) := by
      refine List.map_congr_left fun i hi => ?_
      rcases h i hi with h' | h' | h' <;> rw [h'] <;> rfl
    rw [calculateQueryScore, score_foldl, hmap]
  · intro i h
    rw [calculateQueryScore, score_foldl]
    rw [show (([i].map (fun i => penaltyOf i.severity)).sum) = 30 by simp [h, penaltyOf]]
    rfl
  · intro issues
    exact le_max_left 0 _

/-- C10: the scorer is total over arbitrary issue records: a severity that
is absent, `None`, or any string other than `low`/`medium`/`high` incurs
the default penalty 5, and the score has the closed clamped-sum form for
every issue list, malformed severities included. -/
theorem scorer_default_penalty :
    (∀ sev : PyStr, sev ≠ PyStr.str "low" → sev ≠ PyStr.str "medium" →
        sev ≠ PyStr.str "high" → penaltyOf sev = 5) ∧
    (∀ issues : List Issue, calculateQueryScore issues
        = max 0 (100 - (issues.map (fun i => penaltyOf i.severity)).sum)) := by
  constructor
  · intro sev h1 h2 h3
    cases sev with
    | absent => rfl
    | null => rfl
    | str s =>
      have hs1 : s ≠ "low" := fun h => h1 (by rw [h])
      have hs2 : s ≠ "medium" := fun h => h2 (by rw [h])
      have hs3 : s ≠ "high" := fun h => h3 (by rw [h])
      simp [penaltyOf, hs1, hs2, hs3]
  · intro issues
    rw [calculateQueryScore, score_foldl]

/-! ## Detector lemmas -/

/-- `pure` in the `Except` monad is `Except.ok`. -/
theorem exceptPure_eq_ok {ε α : Type} (a : α) :
    (pure a : Except ε α) = Except.ok a := rfl

/-- Every issue produced by an `Extra`-scanning loop is the fixed issue
record that loop appends. -/
theorem issuesExtraScan_mem {needle : String} {issue : Issue} :
    ∀ {plan : List PlanStep} {l : List Issue},
      issuesExtraScan needle issue plan = .ok l → ∀ a ∈ l, a = issue := by
  intro plan
  induction plan with
  | nil =>
    intro l h a ha
    simp only [issuesExtraScan] at h
    cases h
    simp at ha
  | cons s rest ih =>
    intro l h a ha
    simp only [issuesExtraScan] at h
    cases hx : s.getExtra with
    | none => rw [hx] at h; simp at h
    | some e =>
      rw [hx] at h
      cases hr : issuesExtraScan needle issue rest with
      | error e' => rw [hr] at h; simp [bind, Except.bind] at h
      | ok tail =>
        rw [hr] at h
        simp only [bind, Except.bind, exceptPure_eq_ok, Except.ok.injEq] at h
        subst h
        rcases List.mem_append.mp ha with h1 | h1
        · split at h1
          · simpa using h1
          · simp at h1
        · exact ih hr a h1

/-- A successful pattern match further right survives prepending text. -/
theorem existsMatch_append_right (try_ : List Char → Option (List Char))
    (xs ys : List Char) (h : existsMatch try_ ys = true) :
    existsMatch try_ (xs ++ ys) = true := by
  induction xs with
  | nil => simpa
  | cons x xs ih => simp [existsMatch, ih]

/-- The `WHERE` literal matches at the head of `'WHERE' ++ rest`. -/
theorem matchLitCI_where (rest : List Char) :
    matchLitCI "where".data ('W' :: 'H' :: 'E' :: 'R' :: 'E' :: rest)
      = some rest := rfl

/-- Splicing `" WHERE "` anywhere into a statement makes the detector's
`WHERE` search succeed. -/
theorem searchWhere_append (s₁ s₂ : String) :
    searchWhere (s₁ ++ " WHERE " ++ s₂) = true := by
  have h7 : " WHERE ".data = [' ', 'W', 'H', 'E', 'R', 'E', ' '] := rfl
  have hdata : (s₁ ++ " WHERE " ++ s₂).data
      = s₁.data ++ (' ' :: 'W' :: 'H' :: 'E' :: 'R' :: 'E' :: ' ' :: s₂.data) := by
    simp [String.data_append, h7]
  rw [searchWhere, hdata]
  apply existsMatch_append_right
  simp [existsMatch, matchLitCI_where, matchLitCI]

/-- C7: for every statement and every plan on which detection succeeds,
the issue list contains exactly one `no_where` issue precisely when the
text matches `FROM\s+\w+` and contains no (case-insensitive) `WHERE`;
and splicing any `WHERE` clause into the text removes the issue. -/
theorem detector_no_where_rule :
    (∀ (s : String) (plan : List PlanStep) (issues : List Issue),
        findIssues s plan = .ok issues →
        issues.countP (fun i => i.type_ == "no_where")
          = if searchFromIdent s && !searchWhere s then 1 else 0) ∧
    (∀ (s₁ s₂ : String) (plan : List PlanStep) (issues : List Issue),
        findIssues (s₁ ++ " WHERE " ++ s₂) plan = .ok issues →
        issues.countP (fun i => i.type_ == "no_where") = 0) := by
  have main : ∀ (s : String) (plan : List PlanStep) (issues : List Issue),
      findIssues s plan = .ok issues →
      issues.countP (fun i => i.type_ == "no_where")
        = if searchFromIdent s && !searchWhere s then 1 else 0 := by
    intro s plan issues h
    simp only [findIssues] at h
    cases h1 : issuesExtraScan "Using filesort" filesortIssue plan with
    | error e =>
      rw [h1] at h
      simp [bind, Except.bind, Functor.map, Except.map] at h
    | ok fs =>
      cases h2 : issuesExtraScan "Using temporary" temporaryTableIssue plan with
      | error e =>
        rw [h1, h2] at h
        simp [bind, Except.bind, Functor.map, Except.map] at h
      | ok tmp =>
        rw [h1, h2] at h
        simp only [bind, Except.bind, Functor.map, Except.map, exceptPure_eq_ok,
          Except.ok.injEq] at h
        subst h
        have hsel : (if searchSelectStar s then [selectAllIssue] else []).countP
            (fun i => i.type_ == "no_where") = 0 := by
          split <;> simp [selectAllIssue]
        have hscan : (plan.filterMap fun st =>
            if st.type_ = .str "ALL" then some (tableScanIssue st.table)
            else none).countP (fun i => i.type_ == "no_where") = 0 := by
          rw [List.countP_eq_zero]
          intro a ha
          obtain ⟨st, _, hst⟩ := List.mem_filterMap.mp ha
          split at hst
          · cases hst; simp [tableScanIssue]
          · cases hst
        have hfs : fs.countP (fun i => i.type_ == "no_where") = 0 := by
          rw [List.countP_eq_zero]
          intro a ha
          rw [issuesExtraScan_mem h1 a ha]
          simp [filesortIssue]
        have htmp : tmp.countP (fun i => i.type_ == "no_where") = 0 := by
          rw [List.countP_eq_zero]
          intro a ha
          rw [issuesExtraScan_mem h2 a ha]
          simp [temporaryTableIssue]
        simp only [List.countP_append, hsel, hscan, hfs, htmp]
        cases hW : searchWhere s <;> cases hF : searchFromIdent s <;>
          simp [hW, hF, noWhereIssue]
  refine ⟨main, ?_⟩
  intro s₁ s₂ plan issues h
  rw [main _ _ _ h, searchWhere_append s₁ s₂]
  simp

/-! ## Generate–validate–repair theorems -/

/-- C4: for a generation collaborator all of whose candidates fail
validation, `generate` issues exactly two generation requests — the
initial prompt and one repair prompt — terminates, and returns the second
candidate's text unchanged; being a total function of its collaborators,
it raises nothing. -/
theorem generate_two_calls_on_invalid
    (ai : String → String) (explain : String → Except String Unit)
    (d : String) (s : Schema)
    (h : ∀ p, (validateQuery explain (ai p)).isValid = false) :
    (generate ai explain d s).genPrompts.length = 2 ∧
    ∃ p₂, (generate ai explain d s).genPrompts = [createPrompt d s, p₂] ∧
      (generate ai explain d s).result = ai p₂ := by
  have h0 := h (createPrompt d s)
  refine ⟨?_, fixPrompt (ai (createPrompt d s))
      (errText (validateQuery explain (ai (createPrompt d s))).error) s,
      ?_, ?_⟩ <;>
    simp [generate, h0]

/-- Witness for C4: a collaborator that always proposes
`DROP TABLE customers` fails every validation, and `generate` then issues
exactly the two prompts and returns the repair answer. -/
theorem generate_two_calls_on_invalid_witness :
    (generate (fun _ => "DROP TABLE customers") (fun _ => Except.ok ())
        "show" ⟨[]⟩).genPrompts.length = 2 ∧
    ∃ p₂, (generate (fun _ => "DROP TABLE customers") (fun _ => Except.ok ())
        "show" ⟨[]⟩).genPrompts = [createPrompt "show" ⟨[]⟩, p₂] ∧
      (generate (fun _ => "DROP TABLE customers") (fun _ => Except.ok ())
          "show" ⟨[]⟩).result = (fun _ => "DROP TABLE customers") p₂ :=
  generate_two_calls_on_invalid
    (fun _ => "DROP TABLE customers") (fun _ => Except.ok ()) "show" ⟨[]⟩
    (fun _ => rfl)

/-- C5 counterexample: with a collaborator that always proposes
`DROP TABLE customers`, the first candidate is rejected by the
mutating-statement policy gate — no execution-collaborator call is made —
yet a second generation call (a repair request) is still issued, contrary
to the claim that the loop then terminates without one. -/
theorem policy_violation_still_repairs_cex :
    (generate (fun _ => "DROP TABLE customers") (fun _ => Except.ok ())
        "list customers" ⟨[]⟩).explainCalls = [] ∧
    (generate (fun _ => "DROP TABLE customers") (fun _ => Except.ok ())
        "list customers" ⟨[]⟩).genPrompts.length = 2 :=
  ⟨rfl, rfl⟩

/-- C5 amended: the repair step runs after any validation failure,
policy violations included: when the first candidate is rejected by the
mutating-statement gate, no execution-collaborator call is made, but a
second generation call is issued — with the fixed policy error text in
the repair prompt — and its answer is returned. -/
theorem policy_violation_repairs
    (ai : String → String) (explain : String → Except String Unit)
    (d : String) (s : Schema)
    (h1 : (matchLit "SELECT".data
        (pyUpper (pyStrip (ai (createPrompt d s)).data))).isSome = false)
    (h2 : mutatingKeywords.any (fun w =>
        existsMatch (matchLit w.data)
          (pyUpper (ai (createPrompt d s)).data)) = true) :
    (generate ai explain d s).explainCalls = [] ∧
    (generate ai explain d s).genPrompts.length = 2 ∧
    (generate ai explain d s).result
      = ai (fixPrompt (ai (createPrompt d s))
          "Only SELECT queries are allowed" s) := by
  have hv : validateQuery explain (ai (createPrompt d s))
      = ⟨false, some "Only SELECT queries are allowed", []⟩ := by
    simp [validateQuery, h1, h2]
  refine ⟨?_, ?_, ?_⟩ <;> simp [generate, hv, errText]

/-- Witness for the amended C5 at a collaborator proposing
`DELETE FROM t`. -/
theorem policy_violation_repairs_witness :
    (generate (fun _ => "DELETE FROM t") (fun _ => Except.error "down")
        "purge" ⟨[]⟩).explainCalls = [] ∧
    (generate (fun _ => "DELETE FROM t") (fun _ => Except.error "down")
        "purge" ⟨[]⟩).genPrompts.length = 2 ∧
    (generate (fun _ => "DELETE FROM t") (fun _ => Except.error "down")
        "purge" ⟨[]⟩).result
      = (fun _ => "DELETE FROM t")
          (fixPrompt "DELETE FROM t" "Only SELECT queries are allowed" ⟨[]⟩) :=
  policy_violation_repairs (fun _ => "DELETE FROM t")
    (fun _ => Except.error "down") "purge" ⟨[]⟩ rfl rfl

set_option maxRecDepth 8000 in
/-- C6 counterexample: the first candidate (`SELECT 1`) fails the live
syntax check, a repaired candidate (`SELECT 2`) is obtained — and is
returned although the execution collaborator was consulted only on the
first candidate: the second candidate does not re-enter validation.  -/
theorem repaired_candidate_not_revalidated_cex :
    (generate repairProbeAi (fun _ => Except.error "syntax error")
        "d" ⟨[]⟩).result = "SELECT 2" ∧
    (generate repairProbeAi (fun _ => Except.error "syntax error")
        "d" ⟨[]⟩).genPrompts.length = 2 ∧
    (generate repairProbeAi (fun _ => Except.error "syntax error")
        "d" ⟨[]⟩).explainCalls = ["SELECT 1"] :=
  ⟨rfl, rfl, rfl⟩

/-- C6 amended: a repaired candidate never re-enters validation: in any
`generate` call the execution collaborator is consulted at most once, and
only ever on the first candidate. -/
theorem at_most_one_validation
    (ai : String → String) (explain : String → Except String Unit)
    (d : String) (s : Schema) :
    (generate ai explain d s).explainCalls = [] ∨
    (generate ai explain d s).explainCalls = [ai (createPrompt d s)] := by
  have hgen : (generate ai explain d s).explainCalls
      = (validateQuery explain (ai (createPrompt d s))).explainCalls := by
    rw [generate]
    split <;> rfl
  rw [hgen, validateQuery]
  split
  · left; rfl
  · cases hexp : explain (ai (createPrompt d s)) <;> simp [hexp]

/-! ## Orchestrator and advisor theorems -/

/-- C1: end-to-end, for any narrative-advice collaborator, optimizing
`SELECT * FROM customers` against an execution plan of one full-scan
(`ALL`) step on `customers` yields exactly the issues `select_all`,
`no_where`, `table_scan` in that order; the scorer values that issue list
at `100 − 15 − 30 − 30 = 25` (as `analyze` on the same input reports);
and the rewritten statement substitutes the explicit column list for `*`
and ends in the default `LIMIT 1000` cap. -/
theorem optimize_select_star_customers
    (advice : String → List PlanStep → List Issue → String) :
    ∃ r, optimize fullScanCustomersExplain advice "SELECT * FROM customers"
        = .ok r ∧
      r.issuesFound.map (fun i => i.type_)
        = ["select_all", "no_where", "table_scan"] ∧
      calculateQueryScore r.issuesFound = 25 ∧
      r.optimizedQuery = "SELECT id, name, created_at FROM customers LIMIT 1000" ∧
      (analyze fullScanCustomersExplain "SELECT * FROM customers").map
          AnalyzeReport.score = .ok 25 :=
  ⟨_, rfl, rfl, rfl, rfl, rfl⟩

/-- C8 (claim refuted by the code — code bug): on a plan containing a
step whose `Extra` field is `None` (as MySQL `EXPLAIN` rows routinely
carry), detection — and with it `analyze` and `optimize` — raises
`TypeError: argument of type 'NoneType' is not iterable` from
`'Using filesort' in step.get('Extra', '')`, instead of never raising. -/
theorem detection_raises_on_null_extra :
    findIssues "SELECT * FROM customers"
        [⟨.str "ALL", .str "customers", .null⟩] = .error noneTypeError ∧
    analyze (fun _ => [⟨.str "ALL", .str "customers", .null⟩])
        "SELECT * FROM customers" = .error noneTypeError ∧
    optimize (fun _ => [⟨.str "ALL", .str "customers", .null⟩])
        (fun _ _ _ => "advice") "SELECT * FROM customers"
      = .error noneTypeError :=
  ⟨rfl, rfl, rfl⟩

/-- C9: the rewrite templates' concrete fixed defaults: with a
`select_all` issue present the rewriter pipes the text through the
`SELECT\s+\*` substitution whose replacement is the literal
`SELECT id, name, created_at` (every occurrence, case-insensitively);
with a `no_where` issue present and no `LIMIT` substring in the
(possibly already substituted) text it appends the literal suffix
`' LIMIT 1000'`; the final conjunct evaluates the substitution on a text
with two differently-cased occurrences. -/
theorem rewriter_fixed_defaults :
    (∀ (q : String) (issues : List Issue),
        issues.any (fun i => i.type_ == "select_all") = true →
        issues.any (fun i => i.type_ == "no_where") = false →
        generateOptimizedQuery q issues = subSelectStar q) ∧
    (∀ (q : String) (issues : List Issue),
        issues.any (fun i => i.type_ == "select_all") = true →
        issues.any (fun i => i.type_ == "no_where") = true →
        searchLimit (subSelectStar q) = false →
        generateOptimizedQuery q issues = subSelectStar q ++ " LIMIT 1000") ∧
    (∀ (q : String) (issues : List Issue),
        issues.any (fun i => i.type_ == "select_all") = false →
        issues.any (fun i => i.type_ == "no_where") = true →
        searchLimit q = false →
        generateOptimizedQuery q issues = q ++ " LIMIT 1000") ∧
    subSelectStar "select  * FROM t; SELECT * FROM u"
      = "SELECT id, name, created_at FROM t; SELECT id, name, created_at FROM u" := by
  refine ⟨?_, ?_, ?_, rfl⟩
  · intro q issues h1 h2
    simp [generateOptimizedQuery, h1, h2]
  · intro q issues h1 h2 h3
    simp [generateOptimizedQuery, h1, h2, h3]
  · intro q issues h1 h2 h3
    simp [generateOptimizedQuery, h1, h2, h3]

/-- The inner advisor loop appends one statement per column. -/
theorem foldl_append_singleton {α β : Type} (g : α → β) :
    ∀ (l : List α) (acc : List β),
      l.foldl (fun a c => a ++ [g c]) acc = acc ++ l.map g := by
  intro l
  induction l with
  | nil => intro acc; simp
  | cons x xs ih => intro acc; simp [List.foldl_cons, ih]

/-- A fold whose step appends a per-element block is the flat map of the
blocks. -/
theorem foldl_append_blocks {α β : Type} (step : List β → α → List β)
    (f : α → List β) (hstep : ∀ a t, step a t = a ++ f t) :
    ∀ (ts : List α) (acc : List β),
      ts.foldl step acc = acc ++ ts.flatMap f := by
  intro ts
  induction ts with
  | nil => intro acc; simp
  | cons t ts ih => intro acc; simp [List.foldl_cons, hstep, ih]

/-- C3 amended: for every statement, the advisor emits — for each
extracted table — one single-column suggestion per distinct filter/join
column, each literally `CREATE INDEX idx_<table>_<col> ON <table>(<col>);`,
followed (when order columns exist) by exactly one further suggestion
over the de-duplicated order columns whose name is the literal
`idx_<table>_order`. -/
theorem suggestIndexes_per_table (q : String) :
    suggestIndexes q = suggestIndexesPerTable q := by
  rw [suggestIndexes, suggestIndexesPerTable]
  refine foldl_append_blocks _ _ ?_ _ _
  intro a t
  rw [foldl_append_singleton]
  split
  · simp
  · simp

/-- C3 counterexample: on the specification's own determinism example,
the order-by suggestion the code emits is named `idx_orders_order` — the
statement text the claim prescribes (`idx_orders_order_date`, the
`idx_<table>_<col1_col2_...>` scheme) occurs nowhere in the output, and
the filter column yields a single-column suggestion. -/
theorem suggestIndexes_order_name_cex :
    suggestIndexes "SELECT * FROM orders WHERE customer_id = 5 ORDER BY order_date"
      = ["CREATE INDEX idx_orders_customer_id ON orders(customer_id);",
         "CREATE INDEX idx_orders_order ON orders(order_date);"] ∧
    "CREATE INDEX idx_orders_order_date ON orders(order_date);" ∉
      suggestIndexes "SELECT * FROM orders WHERE customer_id = 5 ORDER BY order_date" := by
  refine ⟨rfl, ?_⟩
  decide
